import Mathlib

/-!
Verification development for the checkin repository's storage core
(`database.js`: `SQLiteAdapter`, `AzureSQLAdapter`, `DatabaseFactory`) and the
CSV import validation in `client/src/DataEditor.js` (`validateCSV`, `saveData`).

The `checkins` table is modelled as a list of rows together with a counter
supplying fresh primary keys (standing in for `uuidv4()`: the only property the
code relies on is that a freshly generated id differs from every stored id).
`CURRENT_TIMESTAMP` / `GETDATE()` is passed in explicitly as a `t : Nat`
argument read at the moment a statement executes.  Dates and owner ids are the
strings the code stores; SQLite compares `TEXT` columns bytewise, which is the
lexicographic `String` order used here.
-/

/-- The five rating values passed to `createOrUpdateCheckin` (the JS `values`
object `{overall, wellbeing, growth, relationships, impact}`). -/
structure Ratings where
  overall : Int
  wellbeing : Int
  growth : Int
  relationships : Int
  impact : Int
deriving Repr, DecidableEq

/-- One row of the `checkins` table: columns `id` (PRIMARY KEY), `user_id`,
`date`, the five rating columns, and `created_at` (DEFAULT CURRENT_TIMESTAMP).
The table carries `UNIQUE(user_id, date)`. -/
structure Checkin where
  id : Nat
  user_id : String
  date : String
  overall : Int
  wellbeing : Int
  growth : Int
  relationships : Int
  impact : Int
  created_at : Nat
deriving Repr, DecidableEq

/-- Database state: the stored rows plus the supply of fresh ids. -/
structure DB where
  rows : List Checkin
  nextId : Nat
deriving Repr, DecidableEq

/-- The five rating columns of a stored row, as a `Ratings` value. -/
def Checkin.values (c : Checkin) : Ratings :=
  ⟨c.overall, c.wellbeing, c.growth, c.relationships, c.impact⟩

/-- A row matches the `WHERE user_id = ? AND date = ?` filter. -/
def keyMatch (uid date : String) (c : Checkin) : Bool :=
  c.user_id == uid && c.date == date

/-- A row conflicts with inserting `(id, uid, date)`: it violates either the
`id` PRIMARY KEY or the `UNIQUE(user_id, date)` constraint. -/
def conflicts (uid date : String) (id : Nat) (c : Checkin) : Bool :=
  keyMatch uid date c || c.id == id

/-- Build the row inserted by
`INSERT INTO checkins (id, user_id, date, overall, wellbeing, growth, relationships, impact)`;
`created_at` takes its column default, the current time `t`. -/
def mkCheckin (id : Nat) (uid date : String) (v : Ratings) (t : Nat) : Checkin :=
  ⟨id, uid, date, v.overall, v.wellbeing, v.growth, v.relationships, v.impact, t⟩

/-- The plain object an upsert resolves with:
`{ id, userId, date, ...values }` (note: no `created_at` key). -/
structure UpsertResult where
  id : Nat
  userId : String
  date : String
  overall : Int
  wellbeing : Int
  growth : Int
  relationships : Int
  impact : Int
deriving Repr, DecidableEq

/-- The `{ inserted: n }` shape resolved by `bulkReplaceCheckins`. -/
structure BulkResult where
  inserted : Nat
deriving Repr, DecidableEq

/-- A row of the JSON body of `PUT /api/checkins/:userId/bulk`, i.e. an element
of the array produced by `validateCSV`: a date plus the five ratings (extra CSV
columns are never read by the insert statements and are not modelled). -/
structure CsvRow where
  date : String
  overall : Int
  wellbeing : Int
  growth : Int
  relationships : Int
  impact : Int
deriving Repr, DecidableEq

/-- The five ratings of a CSV row. -/
def CsvRow.values (r : CsvRow) : Ratings :=
  ⟨r.overall, r.wellbeing, r.growth, r.relationships, r.impact⟩

/-- The `ORDER BY date ASC` comparison used by `getCheckins`. -/
def dateLe (a b : Checkin) : Prop := a.date ≤ b.date

instance : DecidableRel dateLe :=
  fun a b => inferInstanceAs (Decidable (a.date ≤ b.date))

instance : IsTotal Checkin dateLe := ⟨fun a b => le_total a.date b.date⟩

instance : IsTrans Checkin dateLe := ⟨fun _ _ _ h1 h2 => le_trans h1 h2⟩

/-- Model of `SQLiteAdapter.getCheckins(userId)`:
`SELECT * FROM checkins WHERE user_id = ? ORDER BY date ASC`. -/
def SQLiteAdapter.getCheckins (db : DB) (uid : String) : List Checkin :=
  List.insertionSort dateLe (db.rows.filter (fun c => c.user_id == uid))

/-- Model of `SQLiteAdapter.getCheckin(userId, date)`:
`SELECT * FROM checkins WHERE user_id = ? AND date = ?`, resolving
`row || null`. -/
def SQLiteAdapter.getCheckin (db : DB) (uid date : String) : Option Checkin :=
  db.rows.find? (keyMatch uid date)

/-- Model of `SQLiteAdapter.createOrUpdateCheckin(userId, date, values)`:
`INSERT OR REPLACE INTO checkins (id, user_id, date, overall, ...)` with a
fresh `uuidv4()` id.  SQLite's REPLACE conflict resolution first deletes every
row violating any uniqueness constraint (`id` primary key or
`UNIQUE(user_id, date)`) and then inserts the new row; `created_at` is not in
the column list, so it takes the default `CURRENT_TIMESTAMP` (`t`).  Resolves
`{ id, userId, date, ...values }`. -/
def SQLiteAdapter.createOrUpdateCheckin (db : DB) (t : Nat) (uid date : String)
    (v : Ratings) : UpsertResult × DB :=
  let id := db.nextId
  (⟨id, uid, date, v.overall, v.wellbeing, v.growth, v.relationships, v.impact⟩,
   ⟨db.rows.filter (fun c => !(conflicts uid date id c)) ++ [mkCheckin id uid date v t],
    db.nextId + 1⟩)

/-- The insert loop of `SQLiteAdapter.bulkReplaceCheckins`: for each row,
`stmt.run(uuidv4(), userId, row.date, ...)` with NO error callback.  A plain
`INSERT` that violates `UNIQUE(user_id, date)` aborts that statement only (the
transaction stays open) and, since the code attaches no callback to
`stmt.run`, the error is never observed by the surrounding control flow, which
proceeds to the next row. -/
def SQLiteAdapter.bulkInsertLoop (uid : String) (t : Nat) :
    List CsvRow → DB → DB
  | [], db => db
  | r :: rs, db =>
    let id := db.nextId
    let db' : DB :=
      if db.rows.any (conflicts uid r.date id) then ⟨db.rows, id + 1⟩
      else ⟨db.rows ++ [mkCheckin id uid r.date r.values t], id + 1⟩
    SQLiteAdapter.bulkInsertLoop uid t rs db'

/-- Model of `SQLiteAdapter.bulkReplaceCheckins(userId, checkinData)`:
`BEGIN TRANSACTION`; `DELETE FROM checkins WHERE user_id = ?`; one `INSERT`
per row via the prepared statement (errors unhandled, see
`SQLiteAdapter.bulkInsertLoop`); `stmt.finalize` succeeds; `COMMIT`; resolve
`{ inserted: checkinData.length }`.  There is no `ROLLBACK` path for a failed
row insert, so the delete plus the non-conflicting inserts are committed. -/
def SQLiteAdapter.bulkReplaceCheckins (db : DB) (t : Nat) (uid : String)
    (rows : List CsvRow) : BulkResult × DB :=
  let afterDelete : DB := ⟨db.rows.filter (fun c => !(c.user_id == uid)), db.nextId⟩
  (⟨rows.length⟩, SQLiteAdapter.bulkInsertLoop uid t rows afterDelete)

/-- Model of `SQLiteAdapter.deleteAllCheckins(userId)`:
`DELETE FROM checkins WHERE user_id = ?`, resolving `{ deleted: this.changes }`. -/
def SQLiteAdapter.deleteAllCheckins (db : DB) (uid : String) : Nat × DB :=
  (db.rows.countP (fun c => c.user_id == uid),
   ⟨db.rows.filter (fun c => !(c.user_id == uid)), db.nextId⟩)

/-- Model of `AzureSQLAdapter.getCheckins(userId)`:
`SELECT * ... WHERE user_id = @userId ORDER BY date ASC`, mapping each row's
`DATE` value back to its `YYYY-MM-DD` string (an identity in this model, where
dates are stored as the date-only strings the adapter wrote). -/
def AzureSQLAdapter.getCheckins (db : DB) (uid : String) : List Checkin :=
  List.insertionSort dateLe (db.rows.filter (fun c => c.user_id == uid))

/-- Model of `AzureSQLAdapter.getCheckin(userId, date)`: returns `null` when the record
set is empty, else the first row. -/
def AzureSQLAdapter.getCheckin (db : DB) (uid date : String) : Option Checkin :=
  db.rows.find? (keyMatch uid date)

/-- The `WHEN MATCHED THEN UPDATE SET overall = ..., wellbeing = ..., ...`
branch of the `MERGE` applied to one target row: rows matching the key get
their five rating columns overwritten, every other column (`id`,
`created_at`) and every other row stay as they are. -/
def updateRatings (uid date : String) (v : Ratings) (c : Checkin) : Checkin :=
  if keyMatch uid date c then
    { c with overall := v.overall, wellbeing := v.wellbeing, growth := v.growth,
             relationships := v.relationships, impact := v.impact }
  else c

/-- Model of `AzureSQLAdapter.createOrUpdateCheckin(userId, date, values)`: a single
`MERGE` keyed on `(user_id, date)`.  WHEN MATCHED it updates only the five
rating columns (leaving `id` and `created_at` in place); WHEN NOT MATCHED it
inserts a new row with the freshly generated id and `created_at` defaulting to
`GETDATE()` (`t`).  Returns `{ id, userId, date, ...values }` built from the
fresh id, whether or not that id was actually inserted. -/
def AzureSQLAdapter.createOrUpdateCheckin (db : DB) (t : Nat) (uid date : String)
    (v : Ratings) : UpsertResult × DB :=
  let id := db.nextId
  let res : UpsertResult :=
    ⟨id, uid, date, v.overall, v.wellbeing, v.growth, v.relationships, v.impact⟩
  if db.rows.any (keyMatch uid date) then
    (res, ⟨db.rows.map (updateRatings uid date v), db.nextId + 1⟩)
  else
    (res, ⟨db.rows ++ [mkCheckin id uid date v t], db.nextId + 1⟩)

/-- The insert loop of `AzureSQLAdapter.bulkReplaceCheckins`: one awaited
`INSERT` per row; a `UNIQUE KEY` violation rejects, which the surrounding
`try`/`catch` turns into a rollback. -/
def AzureSQLAdapter.bulkInsertLoop (uid : String) (t : Nat) :
    List CsvRow → DB → Except String DB
  | [], db => Except.ok db
  | r :: rs, db =>
    let id := db.nextId
    if db.rows.any (conflicts uid r.date id) then
      Except.error "Violation of UNIQUE KEY constraint UQ_checkins_user_date"
    else
      AzureSQLAdapter.bulkInsertLoop uid t rs
        ⟨db.rows ++ [mkCheckin id uid r.date r.values t], id + 1⟩

/-- Model of `AzureSQLAdapter.bulkReplaceCheckins(userId, checkinData)`:
`transaction.begin()`; `DELETE ... WHERE user_id = @userId`; per-row awaited
inserts; on success `commit` and resolve `{ inserted: checkinData.length }`;
on any failure `rollback` (the database is left exactly as before the call)
and rethrow the error. -/
def AzureSQLAdapter.bulkReplaceCheckins (db : DB) (t : Nat) (uid : String)
    (rows : List CsvRow) : Except String BulkResult × DB :=
  let afterDelete : DB := ⟨db.rows.filter (fun c => !(c.user_id == uid)), db.nextId⟩
  match AzureSQLAdapter.bulkInsertLoop uid t rows afterDelete with
  | Except.ok db' => (Except.ok ⟨rows.length⟩, db')
  | Except.error e => (Except.error e, db)

/-- Model of `AzureSQLAdapter.deleteAllCheckins(userId)`: `DELETE ... WHERE user_id =
@userId`, resolving `{ deleted: result.rowsAffected[0] }`. -/
def AzureSQLAdapter.deleteAllCheckins (db : DB) (uid : String) : Nat × DB :=
  (db.rows.countP (fun c => c.user_id == uid),
   ⟨db.rows.filter (fun c => !(c.user_id == uid)), db.nextId⟩)

/-- The configuration surface read by `DatabaseFactory.create`: the four
`AZURE_SQL_*` variables plus `NODE_ENV`, each either unset (`none`) or set to
a string. -/
structure ProcessEnv where
  AZURE_SQL_SERVER : Option String
  AZURE_SQL_DATABASE : Option String
  AZURE_SQL_USERNAME : Option String
  AZURE_SQL_PASSWORD : Option String
  NODE_ENV : Option String
deriving Repr, DecidableEq

/-- JS truthiness of an environment variable: `undefined` and the empty string
are falsy, every other string is truthy. -/
def truthy : Option String → Bool
  | none => false
  | some s => !(s == "")

/-- The adapter chosen by the factory. -/
inductive DbChoice where
  | azure : String → String → String → String → DbChoice
  | sqlite : String → DbChoice
deriving Repr, DecidableEq

/-- Whether the factory chose the networked Azure SQL adapter. -/
def DbChoice.isAzure : DbChoice → Bool
  | .azure _ _ _ _ => true
  | .sqlite _ => false

/-- Model of `DatabaseFactory.create()`: if `server && database && username && password`
are all truthy, a new `AzureSQLAdapter` with those credentials; otherwise a
`SQLiteAdapter` at `/data/checkin.db` when `NODE_ENV === 'production'` and at
`./checkin.db` otherwise. -/
def DatabaseFactory.create (env : ProcessEnv) : DbChoice :=
  if truthy env.AZURE_SQL_SERVER && truthy env.AZURE_SQL_DATABASE &&
     truthy env.AZURE_SQL_USERNAME && truthy env.AZURE_SQL_PASSWORD then
    DbChoice.azure (env.AZURE_SQL_SERVER.getD "") (env.AZURE_SQL_DATABASE.getD "")
      (env.AZURE_SQL_USERNAME.getD "") (env.AZURE_SQL_PASSWORD.getD "")
  else
    DbChoice.sqlite
      (if env.NODE_ENV == some "production" then "/data/checkin.db" else "./checkin.db")

/-- Whitespace as JS `trim` sees it (space, tab, newline, carriage return and
friends; the repository's CSV text only ever contains these). -/
def jsTrimChars (cs : List Char) : List Char :=
  ((cs.dropWhile Char.isWhitespace).reverse.dropWhile Char.isWhitespace).reverse

/-- JS `String.prototype.trim`. -/
def jsTrim (s : String) : String := ⟨jsTrimChars s.toList⟩

/-- The `split` of a character list at a one-character separator, JS semantics:
`"".split(sep)` is `[""]`, separators at the ends produce empty fields. -/
def splitChars (sep : Char) : List Char → List (List Char)
  | [] => [[]]
  | c :: cs =>
    match splitChars sep cs with
    | h :: t => if c == sep then [] :: h :: t else (c :: h) :: t
    | [] => if c == sep then [[], []] else [[c]]

/-- JS `String.prototype.split` with a one-character separator (the code only
splits on `"
"` and `","`). -/
def jsSplit (sep : Char) (s : String) : List String :=
  (splitChars sep s.toList).map (fun l => ⟨l⟩)

/-- JS `String.prototype.toLowerCase` (ASCII, which covers the header row). -/
def jsToLower (s : String) : String := ⟨s.toList.map Char.toLower⟩

/-- The digit value of a character under JS `parseInt` (letters count in bases
above 10), restricted to the given base. -/
def digitVal (base : Nat) (c : Char) : Option Nat :=
  let v : Option Nat :=
    if '0' ≤ c && c ≤ '9' then some (c.toNat - '0'.toNat)
    else if 'a' ≤ c && c ≤ 'z' then some (c.toNat - 'a'.toNat + 10)
    else if 'A' ≤ c && c ≤ 'Z' then some (c.toNat - 'A'.toNat + 10)
    else none
  match v with
  | some n => if n < base then some n else none
  | none => none

/-- JS `parseInt(s)` with no radix argument: skip leading whitespace, read an
optional sign, switch to base 16 after a `0x`/`0X` prefix, then consume the
longest prefix of digits of the base; `none` models `NaN` (no digits). -/
def jsParseInt (s : String) : Option Int :=
  let cs := jsTrimChars s.toList
  let sign : Int := match cs with | '-' :: _ => -1 | _ => 1
  let cs := match cs with
    | '-' :: rest => rest
    | '+' :: rest => rest
    | _ => cs
  let (base, cs) : Nat × List Char := match cs with
    | '0' :: 'x' :: rest => (16, rest)
    | '0' :: 'X' :: rest => (16, rest)
    | _ => (10, cs)
  let ds := cs.takeWhile (fun c => (digitVal base c).isSome)
  if ds.isEmpty then none
  else some (sign * (ds.foldl (fun acc c => acc * base + (digitVal base c).getD 0) 0 : Nat))

/-- The `/^\d{4}-\d{2}-\d{2}$/` test applied to `row.date`. -/
def validDateStr (s : String) : Bool :=
  match s.toList with
  | [y1, y2, y3, y4, h1, m1, m2, h2, d1, d2] =>
    y1.isDigit && y2.isDigit && y3.isDigit && y4.isDigit && h1 == '-' &&
    m1.isDigit && m2.isDigit && h2 == '-' && d1.isDigit && d2.isDigit
  | _ => false

/-- The required CSV columns. -/
def expectedHeaders : List String :=
  ["date", "overall", "wellbeing", "growth", "relationships", "impact"]

/-- The five rating fields, in the order `validateCSV` checks them. -/
def ratingFields : List String :=
  ["overall", "wellbeing", "growth", "relationships", "impact"]

/-- Reading `row[k]` where `row` was built by
`headers.forEach((header, index) => row[header.trim()] = values[index].trim())`:
the LAST assignment to a key wins; `""` stands for a key never assigned (the
fields actually read are guaranteed present by the header check). -/
def lookupField (pairs : List (String × String)) (k : String) : String :=
  match pairs.reverse.find? (fun p => p.1 == k) with
  | some p => p.2
  | none => ""

/-- The `parseInt` of a rating cell followed by the
`isNaN(value) || value < 1 || value > 10` test: `some v` is the accepted
integer, `none` means the row is rejected for this field. -/
def parseRating (raw : String) : Option Int :=
  match jsParseInt raw with
  | none => none
  | some v => if v < 1 || v > 10 then none else some v

/-- Why a data row was rejected; the row number is attached by the caller
(`rowErrorMsg`), mirroring the `Row ${i + 1} ...` messages thrown in the loop. -/
inductive RowError where
  | badColumns : RowError
  | badDate : RowError
  | badRating : String → RowError
deriving Repr, DecidableEq

/-- The exact message `validateCSV` throws for a bad row. -/
def rowErrorMsg (rowNum : Nat) : RowError → String
  | RowError.badColumns => s!"Row {rowNum} has incorrect number of columns"
  | RowError.badDate => s!"Row {rowNum}: Date must be in YYYY-MM-DD format"
  | RowError.badRating f => s!"Row {rowNum}: {f} must be a number between 1 and 10"

/-- Reading `row[k]` after the row object was populated from the header row
and this line's comma-split values (`row[header.trim()] = values[index].trim()`). -/
def rowField (headers values : List String) (k : String) : String :=
  lookupField ((headers.zip values).map (fun p => (jsTrim p.1, jsTrim p.2))) k

/-- Validation of one data line of the CSV (one iteration of the `for` loop in
`validateCSV`): skip lines that trim to the empty string (`ok none`); reject a
column-count mismatch; build the trimmed header→value map; reject a date not
matching `YYYY-MM-DD`; check the five rating fields in order, rejecting at the
first one whose `parseInt` is `NaN` or out of `[1,10]`. -/
def validateLine (headers : List String) (line : String) :
    Except RowError (Option CsvRow) :=
  if jsTrim line == "" then Except.ok none
  else if (jsSplit ',' line).length != headers.length then Except.error RowError.badColumns
  else if !(validDateStr (rowField headers (jsSplit ',' line) "date")) then
    Except.error RowError.badDate
  else
    match parseRating (rowField headers (jsSplit ',' line) "overall") with
    | none => Except.error (RowError.badRating "overall")
    | some ov =>
      match parseRating (rowField headers (jsSplit ',' line) "wellbeing") with
      | none => Except.error (RowError.badRating "wellbeing")
      | some we =>
        match parseRating (rowField headers (jsSplit ',' line) "growth") with
        | none => Except.error (RowError.badRating "growth")
        | some gr =>
          match parseRating (rowField headers (jsSplit ',' line) "relationships") with
          | none => Except.error (RowError.badRating "relationships")
          | some re =>
            match parseRating (rowField headers (jsSplit ',' line) "impact") with
            | none => Except.error (RowError.badRating "impact")
            | some im =>
              Except.ok (some ⟨rowField headers (jsSplit ',' line) "date", ov, we, gr, re, im⟩)

/-- The data-row loop of `validateCSV` over `lines[i], lines[i+1], ...`: `i` is
the index of the first line in the full line array (the header is line 0), used
only in error messages; accepted rows are accumulated in order and the first
bad row aborts the whole validation with its message. -/
def validateLines (headers : List String) : Nat → List String → Except String (List CsvRow)
  | _, [] => Except.ok []
  | i, l :: ls =>
    match validateLine headers l with
    | Except.error e => Except.error (rowErrorMsg (i + 1) e)
    | Except.ok none => validateLines headers (i + 1) ls
    | Except.ok (some r) => Except.map (fun rest => r :: rest) (validateLines headers (i + 1) ls)

/-- The header cells `lines[0].toLowerCase().split(',')`. -/
def csvHeaders (csvText : String) : List String :=
  jsSplit ',' (jsToLower ((jsSplit '\n' (jsTrim csvText)).headD ""))

/-- Model of `validateCSV(csvText)` from `DataEditor.js`: trim the text, split into
lines (the `lines.length < 1` guard is unreachable, a split is never empty),
lowercase and split the header line, require every expected column name to be
a member of the header list, then run the data-row loop from line index 1. -/
def validateCSV (csvText : String) : Except String (List CsvRow) :=
  if expectedHeaders.all (fun h => (csvHeaders csvText).contains h) then
    validateLines (csvHeaders csvText) 1 (jsSplit '\n' (jsTrim csvText)).tail
  else
    Except.error "CSV must include these columns: date, overall, wellbeing, growth, relationships, impact"

/-- What `saveData` does with the text area contents: on a `validateCSV`
failure the error is displayed and the bulk endpoint is never called; on
success the validated rows are sent to `PUT /api/checkins/:userId/bulk`. -/
inductive SaveAction where
  | noWrite : String → SaveAction
  | bulkPut : List CsvRow → SaveAction
deriving Repr, DecidableEq

/-- Model of `saveData` from `DataEditor.js`, up to the moment the network request is
(or is not) issued. -/
def saveData (csvText : String) : SaveAction :=
  match validateCSV csvText with
  | Except.error e => SaveAction.noWrite e
  | Except.ok rows => SaveAction.bulkPut rows

/-- Rating-range predicates used to state the invariants. -/
def Ratings.inRange (v : Ratings) : Bool :=
  decide (1 ≤ v.overall) && decide (v.overall ≤ 10) &&
  decide (1 ≤ v.wellbeing) && decide (v.wellbeing ≤ 10) &&
  decide (1 ≤ v.growth) && decide (v.growth ≤ 10) &&
  decide (1 ≤ v.relationships) && decide (v.relationships ≤ 10) &&
  decide (1 ≤ v.impact) && decide (v.impact ≤ 10)

/-- All five rating columns of a stored row are in `[1,10]`. -/
def Checkin.inRange (c : Checkin) : Bool := c.values.inRange

/-- The ratings of a CSV row are in `[1,10]`. -/
def CsvRow.inRange (r : CsvRow) : Bool := r.values.inRange

/-- The spec's data-model invariant over a whole database state: every stored
record's five rating fields are integers in `[1,10]`. -/
def DB.good (db : DB) : Bool := db.rows.all Checkin.inRange

/-! ### Helper lemmas -/

theorem filter_no_keyMatch (uid date : String) (id : Nat) (l : List Checkin) :
    (l.filter (fun c => !(conflicts uid date id c))).find? (keyMatch uid date) = none := by
  rw [List.find?_eq_none]
  intro x hx
  rw [List.mem_filter] at hx
  have h2 := hx.2
  simp only [conflicts, Bool.not_eq_true', Bool.or_eq_false_iff] at h2
  simp [h2.1]

theorem keyMatch_mkCheckin (uid date : String) (id : Nat) (v : Ratings) (t : Nat) :
    keyMatch uid date (mkCheckin id uid date v t) = true := by
  simp [keyMatch, mkCheckin]

theorem values_mkCheckin (uid date : String) (id : Nat) (v : Ratings) (t : Nat) :
    (mkCheckin id uid date v t).values = v := rfl

/-- After a SQLite upsert, the row stored under `(uid, date)` is exactly the
freshly inserted one. -/
theorem SQLiteAdapter.upsert_getCheckin (db : DB) (t : Nat) (uid date : String) (v : Ratings) :
    SQLiteAdapter.getCheckin (SQLiteAdapter.createOrUpdateCheckin db t uid date v).2 uid date
      = some (mkCheckin db.nextId uid date v t) := by
  unfold SQLiteAdapter.getCheckin SQLiteAdapter.createOrUpdateCheckin
  simp only [List.find?_append, filter_no_keyMatch, List.find?_cons, keyMatch_mkCheckin,
    Option.none_or]

theorem countP_keyMatch_filter_conflicts (uid date : String) (id : Nat) (l : List Checkin) :
    (l.filter (fun c => !(conflicts uid date id c))).countP (keyMatch uid date) = 0 := by
  rw [List.countP_eq_zero]
  intro x hx
  rw [List.mem_filter] at hx
  have h2 := hx.2
  simp only [conflicts, Bool.not_eq_true', Bool.or_eq_false_iff] at h2
  simp [h2.1]

/-- After a SQLite upsert, exactly one stored row matches `(uid, date)`. -/
theorem sqlite_upsert_countP (db : DB) (t : Nat) (uid date : String) (v : Ratings) :
    ((SQLiteAdapter.createOrUpdateCheckin db t uid date v).2).rows.countP (keyMatch uid date)
      = 1 := by
  unfold SQLiteAdapter.createOrUpdateCheckin
  simp [List.countP_append, countP_keyMatch_filter_conflicts, List.countP_cons,
    keyMatch_mkCheckin]

/-- A `keyMatch` count is unchanged by restricting to the owner's rows,
since a key match is in particular an owner match. -/
theorem countP_keyMatch_filter_owner (uid date : String) (l : List Checkin) :
    (l.filter (fun c => c.user_id == uid)).countP (keyMatch uid date)
      = l.countP (keyMatch uid date) := by
  rw [List.countP_filter]
  apply List.countP_congr
  intro x _
  constructor
  · intro h
    exact (Bool.and_eq_true ..).mp h |>.1
  · intro h
    have ho : (x.user_id == uid) = true := by
      have := (Bool.and_eq_true ..).mp h
      exact this.1
    simp [h, ho]

theorem keyMatch_updateRatings (uid date : String) (v : Ratings) (c : Checkin) :
    keyMatch uid date (updateRatings uid date v c) = keyMatch uid date c := by
  unfold updateRatings
  by_cases h : keyMatch uid date c = true
  · simp only [h, if_true]
    simp [keyMatch] at h ⊢
    exact h
  · simp only [Bool.not_eq_true] at h
    simp [h]

theorem values_updateRatings (uid date : String) (v : Ratings) (c : Checkin)
    (h : keyMatch uid date c = true) : (updateRatings uid date v c).values = v := by
  simp [updateRatings, h, Checkin.values]

theorem id_created_updateRatings (uid date : String) (v : Ratings) (c : Checkin) :
    (updateRatings uid date v c).id = c.id
      ∧ (updateRatings uid date v c).created_at = c.created_at := by
  unfold updateRatings
  by_cases h : keyMatch uid date c = true <;> simp [h]

theorem find?_map_of_pres {f : Checkin → Checkin} {p : Checkin → Bool}
    (hf : ∀ x, p (f x) = p x) :
    ∀ l : List Checkin, (l.map f).find? p = (l.find? p).map f
  | [] => rfl
  | x :: xs => by
    by_cases h : p x = true
    · simp [List.find?_cons, hf, h]
    · simp only [Bool.not_eq_true] at h
      simp [List.find?_cons, hf, h, find?_map_of_pres hf xs]

theorem countP_map_of_pres {f : Checkin → Checkin} {p : Checkin → Bool}
    (hf : ∀ x, p (f x) = p x) (l : List Checkin) :
    (l.map f).countP p = l.countP p := by
  rw [List.countP_map]
  apply List.countP_congr
  intro x _
  simp [Function.comp, hf]

/-- After an Azure upsert, the row stored under `(uid, date)` carries exactly
the written ratings (whether the MERGE matched or inserted). -/
theorem AzureSQLAdapter.upsert_getCheckin_values (db : DB) (t : Nat) (uid date : String)
    (v : Ratings) :
    (AzureSQLAdapter.getCheckin (AzureSQLAdapter.createOrUpdateCheckin db t uid date v).2
        uid date).map Checkin.values = some v := by
  unfold AzureSQLAdapter.getCheckin AzureSQLAdapter.createOrUpdateCheckin
  by_cases h : db.rows.any (keyMatch uid date) = true
  · simp only [h, if_true]
    rw [find?_map_of_pres (keyMatch_updateRatings uid date v)]
    cases hfind : db.rows.find? (keyMatch uid date) with
    | none =>
      rw [List.find?_eq_none] at hfind
      obtain ⟨c, hc, hpc⟩ := List.any_eq_true.mp h
      exact absurd hpc (hfind c hc)
    | some c =>
      have hpc := List.find?_some hfind
      simp [values_updateRatings uid date v c hpc]
  · simp only [Bool.not_eq_true] at h
    have hc : ¬ (db.rows.any (keyMatch uid date) = true) := by simp [h]
    rw [if_neg hc]
    have h1 : db.rows.find? (keyMatch uid date) = none := by
      rw [List.find?_eq_none]
      intro x hx hpx
      have : db.rows.any (keyMatch uid date) = true := List.any_eq_true.mpr ⟨x, hx, hpx⟩
      rw [h] at this
      cases this
    simp [List.find?_append, h1, List.find?_cons, keyMatch_mkCheckin, values_mkCheckin]

/-- After an Azure upsert on a database with at most one row under the key,
exactly one row is stored under the key. -/
theorem azure_upsert_countP (db : DB) (t : Nat) (uid date : String) (v : Ratings)
    (hdb : db.rows.countP (keyMatch uid date) ≤ 1) :
    ((AzureSQLAdapter.createOrUpdateCheckin db t uid date v).2).rows.countP (keyMatch uid date)
      = 1 := by
  unfold AzureSQLAdapter.createOrUpdateCheckin
  by_cases h : db.rows.any (keyMatch uid date) = true
  · simp only [h, if_true]
    rw [countP_map_of_pres (keyMatch_updateRatings uid date v)]
    obtain ⟨c, hc, hpc⟩ := List.any_eq_true.mp h
    have hpos : 0 < db.rows.countP (keyMatch uid date) :=
      List.countP_pos_iff.mpr ⟨c, hc, hpc⟩
    omega
  · simp only [Bool.not_eq_true] at h
    have hc : ¬ (db.rows.any (keyMatch uid date) = true) := by simp [h]
    rw [if_neg hc]
    have h0 : db.rows.countP (keyMatch uid date) = 0 := by
      rw [List.countP_eq_zero]
      intro x hx hpx
      have : db.rows.any (keyMatch uid date) = true := List.any_eq_true.mpr ⟨x, hx, hpx⟩
      rw [h] at this
      cases this
    simp [List.countP_append, h0, List.countP_cons, keyMatch_mkCheckin]

theorem sqlite_getCheckins_perm (db : DB) (uid : String) :
    List.Perm (SQLiteAdapter.getCheckins db uid)
      (db.rows.filter (fun c => c.user_id == uid)) :=
  List.perm_insertionSort dateLe _

theorem sqlite_getCheckins_sorted (db : DB) (uid : String) :
    List.Sorted dateLe (SQLiteAdapter.getCheckins db uid) :=
  List.sorted_insertionSort dateLe _

theorem azure_getCheckins_perm (db : DB) (uid : String) :
    List.Perm (AzureSQLAdapter.getCheckins db uid)
      (db.rows.filter (fun c => c.user_id == uid)) :=
  List.perm_insertionSort dateLe _

theorem azure_getCheckins_sorted (db : DB) (uid : String) :
    List.Sorted dateLe (AzureSQLAdapter.getCheckins db uid) :=
  List.sorted_insertionSort dateLe _

/-! ### Claims -/

/-- Claim C2: for every valid owner id, `YYYY-MM-DD` date string and five
integer ratings each in `[1,10]`, `createOrUpdateCheckin(ownerId, date,
ratings)` followed by `getCheckin(ownerId, date)` returns a record whose five
rating fields are exactly the given ratings. -/
theorem C2_upsert_then_getCheckin (db : DB) (t : Nat) (uid date : String) (v : Ratings)
    (hdate : validDateStr date = true) (hv : v.inRange = true) :
    (SQLiteAdapter.getCheckin (SQLiteAdapter.createOrUpdateCheckin db t uid date v).2
        uid date).map Checkin.values = some v := by
  rw [SQLiteAdapter.upsert_getCheckin]
  simp [values_mkCheckin]

theorem C2_upsert_then_getCheckin_witness :
    validDateStr "2025-01-01" = true
  ∧ Ratings.inRange ⟨5, 6, 7, 8, 9⟩ = true
  ∧ (SQLiteAdapter.getCheckin
        (SQLiteAdapter.createOrUpdateCheckin ⟨[], 0⟩ 3 "u" "2025-01-01" ⟨5, 6, 7, 8, 9⟩).2
        "u" "2025-01-01").map Checkin.values = some ⟨5, 6, 7, 8, 9⟩ :=
  ⟨by decide, by decide,
   C2_upsert_then_getCheckin ⟨[], 0⟩ 3 "u" "2025-01-01" ⟨5, 6, 7, 8, 9⟩ (by decide) (by decide)⟩

/-- Claim C3: upserting the same `(ownerId, date)` twice, with ratings `A`
then ratings `B`, leaves exactly one stored record for that key, its five
rating fields equal `B`, and the owner's listing contains it exactly once —
unconditionally on the SQLite adapter, and on the Azure adapter for every
state satisfying the `UNIQUE(user_id, date)` constraint (at most one stored
row per key). -/
theorem C3_upsert_twice (db : DB) (t1 t2 : Nat) (uid date : String) (A B : Ratings)
    (hdb : db.rows.countP (keyMatch uid date) ≤ 1) :
    (let db2 := (SQLiteAdapter.createOrUpdateCheckin
        (SQLiteAdapter.createOrUpdateCheckin db t1 uid date A).2 t2 uid date B).2
     db2.rows.countP (keyMatch uid date) = 1
       ∧ (SQLiteAdapter.getCheckin db2 uid date).map Checkin.values = some B
       ∧ (SQLiteAdapter.getCheckins db2 uid).countP (keyMatch uid date) = 1)
  ∧ (let db2 := (AzureSQLAdapter.createOrUpdateCheckin
        (AzureSQLAdapter.createOrUpdateCheckin db t1 uid date A).2 t2 uid date B).2
     db2.rows.countP (keyMatch uid date) = 1
       ∧ (AzureSQLAdapter.getCheckin db2 uid date).map Checkin.values = some B
       ∧ (AzureSQLAdapter.getCheckins db2 uid).countP (keyMatch uid date) = 1) := by
  constructor
  · refine ⟨sqlite_upsert_countP _ t2 uid date B, ?_, ?_⟩
    · rw [SQLiteAdapter.upsert_getCheckin]
      simp [values_mkCheckin]
    · rw [List.Perm.countP_eq _ (sqlite_getCheckins_perm _ uid),
        countP_keyMatch_filter_owner]
      exact sqlite_upsert_countP _ t2 uid date B
  · have h1 : ((AzureSQLAdapter.createOrUpdateCheckin db t1 uid date A).2).rows.countP
        (keyMatch uid date) = 1 :=
      azure_upsert_countP db t1 uid date A hdb
    refine ⟨azure_upsert_countP _ t2 uid date B (by omega), ?_, ?_⟩
    · exact AzureSQLAdapter.upsert_getCheckin_values _ t2 uid date B
    · rw [List.Perm.countP_eq _ (azure_getCheckins_perm _ uid),
        countP_keyMatch_filter_owner]
      exact azure_upsert_countP _ t2 uid date B (by omega)

theorem C3_upsert_twice_witness :
    (⟨[], 0⟩ : DB).rows.countP (keyMatch "u" "2025-01-01") ≤ 1
  ∧ ((let db2 := (SQLiteAdapter.createOrUpdateCheckin
        (SQLiteAdapter.createOrUpdateCheckin ⟨[], 0⟩ 1 "u" "2025-01-01" ⟨5, 5, 5, 5, 5⟩).2
        2 "u" "2025-01-01" ⟨8, 8, 8, 8, 8⟩).2
      db2.rows.countP (keyMatch "u" "2025-01-01") = 1
        ∧ (SQLiteAdapter.getCheckin db2 "u" "2025-01-01").map Checkin.values
            = some ⟨8, 8, 8, 8, 8⟩
        ∧ (SQLiteAdapter.getCheckins db2 "u").countP (keyMatch "u" "2025-01-01") = 1)
    ∧ (let db2 := (AzureSQLAdapter.createOrUpdateCheckin
        (AzureSQLAdapter.createOrUpdateCheckin ⟨[], 0⟩ 1 "u" "2025-01-01" ⟨5, 5, 5, 5, 5⟩).2
        2 "u" "2025-01-01" ⟨8, 8, 8, 8, 8⟩).2
      db2.rows.countP (keyMatch "u" "2025-01-01") = 1
        ∧ (AzureSQLAdapter.getCheckin db2 "u" "2025-01-01").map Checkin.values
            = some ⟨8, 8, 8, 8, 8⟩
        ∧ (AzureSQLAdapter.getCheckins db2 "u").countP (keyMatch "u" "2025-01-01") = 1)) :=
  ⟨by decide,
   C3_upsert_twice ⟨[], 0⟩ 1 2 "u" "2025-01-01" ⟨5, 5, 5, 5, 5⟩ ⟨8, 8, 8, 8, 8⟩ (by decide)⟩

/-- Claim C1 (code bug, evaluated at the failing input): the owner has one
prior record at `2025-01-01` and the payload holds two rows with the same date
`2025-02-02`.  The SQLite adapter deletes the prior record, commits the first
duplicate row, and resolves successfully with `{ inserted: 2 }` — its
`bulkReplaceCheckins` has no rollback path for a failed row insert, because
`stmt.run` is called without an error callback.  The Azure adapter on the same
input rolls back and rethrows, leaving the database exactly as it was. -/
theorem C1_bulkReplace_duplicate_dates :
    SQLiteAdapter.bulkReplaceCheckins ⟨[⟨0, "u", "2025-01-01", 5, 5, 5, 5, 5, 100⟩], 1⟩ 200 "u"
        [⟨"2025-02-02", 6, 6, 6, 6, 6⟩, ⟨"2025-02-02", 7, 7, 7, 7, 7⟩]
      = (⟨2⟩, ⟨[⟨1, "u", "2025-02-02", 6, 6, 6, 6, 6, 200⟩], 3⟩)
  ∧ AzureSQLAdapter.bulkReplaceCheckins ⟨[⟨0, "u", "2025-01-01", 5, 5, 5, 5, 5, 100⟩], 1⟩ 200 "u"
        [⟨"2025-02-02", 6, 6, 6, 6, 6⟩, ⟨"2025-02-02", 7, 7, 7, 7, 7⟩]
      = (Except.error "Violation of UNIQUE KEY constraint UQ_checkins_user_date",
         ⟨[⟨0, "u", "2025-01-01", 5, 5, 5, 5, 5, 100⟩], 1⟩) := by
  exact ⟨rfl, rfl⟩

/-- Claim C6 counterexample: on the SQLite adapter an update IS a delete plus
re-insert (`INSERT OR REPLACE` with `created_at` left to its default), so a
record created at time 10 and updated at time 20 ends up stored with
`created_at = 20`, not 10. -/
theorem C6_counterexample :
    (SQLiteAdapter.getCheckin
        (SQLiteAdapter.createOrUpdateCheckin ⟨[], 0⟩ 10 "u" "2025-01-01" ⟨5, 5, 5, 5, 5⟩).2
        "u" "2025-01-01").map (fun c => c.created_at) = some 10
  ∧ (SQLiteAdapter.getCheckin
        (SQLiteAdapter.createOrUpdateCheckin
          (SQLiteAdapter.createOrUpdateCheckin ⟨[], 0⟩ 10 "u" "2025-01-01" ⟨5, 5, 5, 5, 5⟩).2
          20 "u" "2025-01-01" ⟨8, 8, 8, 8, 8⟩).2
        "u" "2025-01-01").map (fun c => c.created_at) = some 20 := by
  exact ⟨rfl, rfl⟩

/-- Claim C6 (amended): on the Azure adapter, updating an existing
`(ownerId, date)` record through `createOrUpdateCheckin` leaves both the
stored `created_at` and the stored `id` unchanged (the MERGE updates only the
five rating columns); the SQLite adapter instead replaces the whole row,
resetting `created_at` (and `id`). -/
theorem C6_azure_update_preserves_created_at (db : DB) (t : Nat) (uid date : String)
    (v : Ratings) (c : Checkin) (h : AzureSQLAdapter.getCheckin db uid date = some c) :
    (AzureSQLAdapter.getCheckin (AzureSQLAdapter.createOrUpdateCheckin db t uid date v).2
        uid date).map (fun x => (x.created_at, x.id)) = some (c.created_at, c.id) := by
  have hmem := List.mem_of_find?_eq_some h
  have hpc := List.find?_some h
  have hany : db.rows.any (keyMatch uid date) = true :=
    List.any_eq_true.mpr ⟨c, hmem, hpc⟩
  unfold AzureSQLAdapter.getCheckin AzureSQLAdapter.createOrUpdateCheckin
  rw [if_pos hany]
  unfold AzureSQLAdapter.getCheckin at h
  rw [show (⟨db.rows.map (updateRatings uid date v), db.nextId + 1⟩ : DB).rows
      = db.rows.map (updateRatings uid date v) from rfl]
  rw [find?_map_of_pres (keyMatch_updateRatings uid date v), h]
  simp [(id_created_updateRatings uid date v c).1, (id_created_updateRatings uid date v c).2]

theorem C6_azure_update_preserves_created_at_witness :
    AzureSQLAdapter.getCheckin ⟨[⟨0, "u", "2025-01-01", 5, 5, 5, 5, 5, 77⟩], 1⟩ "u" "2025-01-01"
      = some ⟨0, "u", "2025-01-01", 5, 5, 5, 5, 5, 77⟩
  ∧ (AzureSQLAdapter.getCheckin
        (AzureSQLAdapter.createOrUpdateCheckin ⟨[⟨0, "u", "2025-01-01", 5, 5, 5, 5, 5, 77⟩], 1⟩
          99 "u" "2025-01-01" ⟨8, 8, 8, 8, 8⟩).2 "u" "2025-01-01").map
      (fun x => (x.created_at, x.id)) = some (77, 0) :=
  ⟨by decide,
   C6_azure_update_preserves_created_at ⟨[⟨0, "u", "2025-01-01", 5, 5, 5, 5, 5, 77⟩], 1⟩
     99 "u" "2025-01-01" ⟨8, 8, 8, 8, 8⟩ ⟨0, "u", "2025-01-01", 5, 5, 5, 5, 5, 77⟩ (by decide)⟩

theorem keyMatch_eq (uid date : String) (c : Checkin) (h : keyMatch uid date c = true) :
    c.user_id = uid ∧ c.date = date := by
  simp only [keyMatch, Bool.and_eq_true, beq_iff_eq] at h
  exact h

theorem user_date_updateRatings (uid date : String) (v : Ratings) (c : Checkin) :
    (updateRatings uid date v c).user_id = c.user_id
      ∧ (updateRatings uid date v c).date = c.date := by
  unfold updateRatings
  by_cases h : keyMatch uid date c = true <;> simp [h]

theorem find?_keyMatch_append_mk (uid date : String) (l : List Checkin) (id : Nat)
    (v : Ratings) (t : Nat) (hl : l.find? (keyMatch uid date) = none) :
    (l ++ [mkCheckin id uid date v t]).find? (keyMatch uid date)
      = some (mkCheckin id uid date v t) := by
  rw [List.find?_append, hl, Option.none_or,
    List.find?_cons_of_pos _ (keyMatch_mkCheckin uid date id v t)]

/-- After an Azure upsert, the row stored under the key has owner `uid`, date
`date` and exactly the written ratings. -/
theorem AzureSQLAdapter.upsert_getCheckin_key_values (db : DB) (t : Nat) (uid date : String)
    (v : Ratings) :
    (AzureSQLAdapter.getCheckin (AzureSQLAdapter.createOrUpdateCheckin db t uid date v).2
        uid date).map (fun c => (c.user_id, c.date, c.values)) = some (uid, date, v) := by
  unfold AzureSQLAdapter.getCheckin AzureSQLAdapter.createOrUpdateCheckin
  by_cases h : db.rows.any (keyMatch uid date) = true
  · rw [if_pos h]
    rw [show (⟨db.rows.map (updateRatings uid date v), db.nextId + 1⟩ : DB).rows
        = db.rows.map (updateRatings uid date v) from rfl]
    rw [find?_map_of_pres (keyMatch_updateRatings uid date v)]
    cases hfind : db.rows.find? (keyMatch uid date) with
    | none =>
      rw [List.find?_eq_none] at hfind
      obtain ⟨c, hc, hpc⟩ := List.any_eq_true.mp h
      exact absurd hpc (hfind c hc)
    | some c =>
      have hpc := List.find?_some hfind
      have hkey := keyMatch_eq uid date c hpc
      have hud := user_date_updateRatings uid date v c
      simp [values_updateRatings uid date v c hpc, hud.1, hud.2, hkey.1, hkey.2]
  · simp only [Bool.not_eq_true] at h
    have hc : ¬ (db.rows.any (keyMatch uid date) = true) := by simp [h]
    rw [if_neg hc]
    have h1 : db.rows.find? (keyMatch uid date) = none := by
      rw [List.find?_eq_none]
      intro x hx hpx
      have : db.rows.any (keyMatch uid date) = true := List.any_eq_true.mpr ⟨x, hx, hpx⟩
      rw [h] at this
      cases this
    rw [show (⟨db.rows ++ [mkCheckin db.nextId uid date v t], db.nextId + 1⟩ : DB).rows
        = db.rows ++ [mkCheckin db.nextId uid date v t] from rfl]
    rw [find?_keyMatch_append_mk uid date db.rows db.nextId v t h1]
    rfl

theorem AzureSQLAdapter.upsert_fst (db : DB) (t : Nat) (uid date : String) (v : Ratings) :
    (AzureSQLAdapter.createOrUpdateCheckin db t uid date v).1
      = ⟨db.nextId, uid, date, v.overall, v.wellbeing, v.growth, v.relationships, v.impact⟩ := by
  unfold AzureSQLAdapter.createOrUpdateCheckin
  split <;> rfl

/-- Claim C7 counterexample: upserting onto an existing Azure record — the
MERGE takes the matched branch and keeps the stored id `0`, while the resolved
object carries the freshly generated id `1`: the returned record's `id` does
not equal the stored record's `id`. -/
theorem C7_counterexample :
    (AzureSQLAdapter.createOrUpdateCheckin ⟨[⟨0, "u", "2025-01-01", 5, 5, 5, 5, 5, 77⟩], 1⟩
        99 "u" "2025-01-01" ⟨8, 8, 8, 8, 8⟩).1.id = 1
  ∧ (AzureSQLAdapter.getCheckin
        (AzureSQLAdapter.createOrUpdateCheckin ⟨[⟨0, "u", "2025-01-01", 5, 5, 5, 5, 5, 77⟩], 1⟩
          99 "u" "2025-01-01" ⟨8, 8, 8, 8, 8⟩).2 "u" "2025-01-01").map (fun c => c.id)
      = some 0 := by
  exact ⟨rfl, rfl⟩

/-- Claim C7 (amended): the record returned by `createOrUpdateCheckin` agrees
with the record subsequently stored for that `(ownerId, date)` on owner, date
and all five ratings on both adapters; on the SQLite adapter the ids agree
too, and on the Azure adapter the ids agree whenever no record previously
existed for the key — but on an Azure update the stored row keeps its old id
while the returned object carries a freshly generated one. -/
theorem C7_upsert_returns_stored (db : DB) (t : Nat) (uid date : String) (v : Ratings) :
    ((SQLiteAdapter.getCheckin (SQLiteAdapter.createOrUpdateCheckin db t uid date v).2
        uid date).map (fun c => (c.id, c.user_id, c.date, c.values))
      = some ((SQLiteAdapter.createOrUpdateCheckin db t uid date v).1.id,
          (SQLiteAdapter.createOrUpdateCheckin db t uid date v).1.userId,
          (SQLiteAdapter.createOrUpdateCheckin db t uid date v).1.date,
          ⟨(SQLiteAdapter.createOrUpdateCheckin db t uid date v).1.overall,
           (SQLiteAdapter.createOrUpdateCheckin db t uid date v).1.wellbeing,
           (SQLiteAdapter.createOrUpdateCheckin db t uid date v).1.growth,
           (SQLiteAdapter.createOrUpdateCheckin db t uid date v).1.relationships,
           (SQLiteAdapter.createOrUpdateCheckin db t uid date v).1.impact⟩))
  ∧ ((AzureSQLAdapter.getCheckin (AzureSQLAdapter.createOrUpdateCheckin db t uid date v).2
        uid date).map (fun c => (c.user_id, c.date, c.values))
      = some ((AzureSQLAdapter.createOrUpdateCheckin db t uid date v).1.userId,
          (AzureSQLAdapter.createOrUpdateCheckin db t uid date v).1.date,
          ⟨(AzureSQLAdapter.createOrUpdateCheckin db t uid date v).1.overall,
           (AzureSQLAdapter.createOrUpdateCheckin db t uid date v).1.wellbeing,
           (AzureSQLAdapter.createOrUpdateCheckin db t uid date v).1.growth,
           (AzureSQLAdapter.createOrUpdateCheckin db t uid date v).1.relationships,
           (AzureSQLAdapter.createOrUpdateCheckin db t uid date v).1.impact⟩))
  ∧ (AzureSQLAdapter.getCheckin db uid date = none →
     (AzureSQLAdapter.getCheckin (AzureSQLAdapter.createOrUpdateCheckin db t uid date v).2
        uid date).map (fun c => c.id)
      = some (AzureSQLAdapter.createOrUpdateCheckin db t uid date v).1.id) := by
  refine ⟨?_, ?_, ?_⟩
  · rw [SQLiteAdapter.upsert_getCheckin]
    rfl
  · rw [AzureSQLAdapter.upsert_fst]
    exact AzureSQLAdapter.upsert_getCheckin_key_values db t uid date v
  · intro hnone
    unfold AzureSQLAdapter.getCheckin at hnone
    have hc : ¬ (db.rows.any (keyMatch uid date) = true) := by
      intro hany
      obtain ⟨x, hx, hpx⟩ := List.any_eq_true.mp hany
      rw [List.find?_eq_none] at hnone
      exact hnone x hx hpx
    unfold AzureSQLAdapter.getCheckin AzureSQLAdapter.createOrUpdateCheckin
    rw [if_neg hc]
    rw [show (⟨db.rows ++ [mkCheckin db.nextId uid date v t], db.nextId + 1⟩ : DB).rows
        = db.rows ++ [mkCheckin db.nextId uid date v t] from rfl]
    rw [find?_keyMatch_append_mk uid date db.rows db.nextId v t hnone]
    rfl

theorem C7_upsert_returns_stored_witness :
    AzureSQLAdapter.getCheckin ⟨[], 0⟩ "u" "2025-01-01" = none
  ∧ (AzureSQLAdapter.getCheckin
        (AzureSQLAdapter.createOrUpdateCheckin ⟨[], 0⟩ 5 "u" "2025-01-01" ⟨5, 5, 5, 5, 5⟩).2
        "u" "2025-01-01").map (fun c => c.id)
      = some (AzureSQLAdapter.createOrUpdateCheckin ⟨[], 0⟩ 5 "u" "2025-01-01"
          ⟨5, 5, 5, 5, 5⟩).1.id :=
  ⟨by decide,
   (C7_upsert_returns_stored ⟨[], 0⟩ 5 "u" "2025-01-01" ⟨5, 5, 5, 5, 5⟩).2.2 (by decide)⟩

/-- Claim C8: on both adapters, `getCheckins(ownerId)` returns exactly the
stored records belonging to that owner (a permutation of the owner's rows),
sorted ascending by `date` (bytewise string order, which on `YYYY-MM-DD`
strings is chronological order), and returns the empty list — not an error —
when the owner has no records. -/
theorem C8_getCheckins_sorted_complete (db : DB) (uid : String) :
    (List.Sorted dateLe (SQLiteAdapter.getCheckins db uid)
      ∧ List.Perm (SQLiteAdapter.getCheckins db uid)
          (db.rows.filter (fun c => c.user_id == uid))
      ∧ ((∀ c ∈ db.rows, (c.user_id == uid) = false) →
          SQLiteAdapter.getCheckins db uid = []))
  ∧ (List.Sorted dateLe (AzureSQLAdapter.getCheckins db uid)
      ∧ List.Perm (AzureSQLAdapter.getCheckins db uid)
          (db.rows.filter (fun c => c.user_id == uid))
      ∧ ((∀ c ∈ db.rows, (c.user_id == uid) = false) →
          AzureSQLAdapter.getCheckins db uid = [])) := by
  refine ⟨⟨sqlite_getCheckins_sorted db uid, sqlite_getCheckins_perm db uid, ?_⟩,
    ⟨azure_getCheckins_sorted db uid, azure_getCheckins_perm db uid, ?_⟩⟩
  · intro h
    unfold SQLiteAdapter.getCheckins
    rw [List.filter_eq_nil_iff.mpr (fun a ha => by simp [h a ha])]
    rfl
  · intro h
    unfold AzureSQLAdapter.getCheckins
    rw [List.filter_eq_nil_iff.mpr (fun a ha => by simp [h a ha])]
    rfl

theorem C8_getCheckins_sorted_complete_witness :
    (∀ c ∈ (⟨[⟨0, "v", "2025-01-01", 5, 5, 5, 5, 5, 0⟩], 1⟩ : DB).rows,
        (c.user_id == "u") = false)
  ∧ SQLiteAdapter.getCheckins ⟨[⟨0, "v", "2025-01-01", 5, 5, 5, 5, 5, 0⟩], 1⟩ "u" = [] :=
  ⟨by decide,
   (C8_getCheckins_sorted_complete ⟨[⟨0, "v", "2025-01-01", 5, 5, 5, 5, 5, 0⟩], 1⟩ "u").1.2.2
     (by decide)⟩

/-- Claim C9: `DatabaseFactory.create` returns the Azure SQL adapter exactly
when all four settings `AZURE_SQL_SERVER`, `AZURE_SQL_DATABASE`,
`AZURE_SQL_USERNAME`, `AZURE_SQL_PASSWORD` are present (set and non-empty, JS
truthiness); with any of them absent it returns the SQLite adapter, at
`/data/checkin.db` when `NODE_ENV === 'production'` and at `./checkin.db`
otherwise. -/
theorem C9_factory_selection (env : ProcessEnv) :
    DbChoice.isAzure (DatabaseFactory.create env)
      = (truthy env.AZURE_SQL_SERVER && truthy env.AZURE_SQL_DATABASE &&
         truthy env.AZURE_SQL_USERNAME && truthy env.AZURE_SQL_PASSWORD)
  ∧ ((truthy env.AZURE_SQL_SERVER && truthy env.AZURE_SQL_DATABASE &&
      truthy env.AZURE_SQL_USERNAME && truthy env.AZURE_SQL_PASSWORD) = false →
     DatabaseFactory.create env
       = DbChoice.sqlite
           (if env.NODE_ENV == some "production" then "/data/checkin.db"
            else "./checkin.db")) := by
  by_cases h : (truthy env.AZURE_SQL_SERVER && truthy env.AZURE_SQL_DATABASE &&
      truthy env.AZURE_SQL_USERNAME && truthy env.AZURE_SQL_PASSWORD) = true
  · constructor
    · simp [DatabaseFactory.create, h, DbChoice.isAzure]
    · intro hfalse
      rw [h] at hfalse
      cases hfalse
  · simp only [Bool.not_eq_true] at h
    constructor
    · simp [DatabaseFactory.create, h, DbChoice.isAzure]
    · intro _
      simp [DatabaseFactory.create, h]

theorem C9_factory_selection_witness :
    (truthy (none : Option String) && truthy (none : Option String) &&
     truthy (none : Option String) && truthy (none : Option String)) = false
  ∧ DatabaseFactory.create ⟨none, none, none, none, none⟩ = DbChoice.sqlite "./checkin.db" :=
  ⟨by decide, (C9_factory_selection ⟨none, none, none, none, none⟩).2 (by decide)⟩

/-- Claim C5 counterexample: the store itself enforces nothing about rating
values — starting from an empty (invariant-satisfying) database,
`createOrUpdateCheckin` with `overall = 11` stores the out-of-range record
(likewise the bulk endpoint forwards arbitrary rows to
`bulkReplaceCheckins`), so the invariant is NOT preserved under arbitrary
inputs. -/
theorem C5_counterexample :
    DB.good ⟨[], 0⟩ = true
  ∧ DB.good (SQLiteAdapter.createOrUpdateCheckin ⟨[], 0⟩ 0 "u" "2025-01-01"
      ⟨11, 5, 5, 5, 5⟩).2 = false := by
  exact ⟨rfl, rfl⟩

theorem all_inRange_of_filter (q : Checkin → Bool) (l : List Checkin)
    (h : l.all Checkin.inRange = true) :
    (l.filter q).all Checkin.inRange = true := by
  rw [List.all_eq_true] at h ⊢
  intro x hx
  exact h x (List.mem_filter.mp hx).1

theorem inRange_mkCheckin (id : Nat) (uid date : String) (v : Ratings) (t : Nat)
    (hv : Ratings.inRange v = true) :
    Checkin.inRange (mkCheckin id uid date v t) = true := hv

theorem inRange_updateRatings (uid date : String) (v : Ratings) (c : Checkin)
    (hv : Ratings.inRange v = true) (hc : Checkin.inRange c = true) :
    Checkin.inRange (updateRatings uid date v c) = true := by
  unfold updateRatings
  by_cases h : keyMatch uid date c = true
  · rw [if_pos h]
    exact hv
  · rw [if_neg h]
    exact hc

theorem sqlite_bulkInsertLoop_good (uid : String) (t : Nat) :
    ∀ (rows : List CsvRow) (db : DB), (∀ r ∈ rows, CsvRow.inRange r = true) →
      DB.good db = true → DB.good (SQLiteAdapter.bulkInsertLoop uid t rows db) = true
  | [], db, _, h => h
  | r :: rs, db, hrows, h => by
    unfold SQLiteAdapter.bulkInsertLoop
    apply sqlite_bulkInsertLoop_good uid t rs _
      (fun x hx => hrows x (List.mem_cons_of_mem r hx))
    by_cases hc : db.rows.any (conflicts uid r.date db.nextId) = true
    · rw [if_pos hc]
      exact h
    · rw [if_neg hc]
      show (db.rows ++ [mkCheckin db.nextId uid r.date r.values t]).all Checkin.inRange = true
      rw [List.all_append]
      have hr : Checkin.inRange (mkCheckin db.nextId uid r.date r.values t) = true :=
        inRange_mkCheckin _ uid r.date r.values t (hrows r (List.mem_cons_self r rs))
      have hall : db.rows.all Checkin.inRange = true := h
      simp [hall, hr]

theorem azure_bulkInsertLoop_good (uid : String) (t : Nat) :
    ∀ (rows : List CsvRow) (db db' : DB), (∀ r ∈ rows, CsvRow.inRange r = true) →
      DB.good db = true → AzureSQLAdapter.bulkInsertLoop uid t rows db = Except.ok db' →
      DB.good db' = true
  | [], db, db', _, h, heq => by
    unfold AzureSQLAdapter.bulkInsertLoop at heq
    cases heq
    exact h
  | r :: rs, db, db', hrows, h, heq => by
    unfold AzureSQLAdapter.bulkInsertLoop at heq
    by_cases hc : db.rows.any (conflicts uid r.date db.nextId) = true
    · rw [if_pos hc] at heq
      cases heq
    · rw [if_neg hc] at heq
      apply azure_bulkInsertLoop_good uid t rs _ db'
        (fun x hx => hrows x (List.mem_cons_of_mem r hx)) _ heq
      show (db.rows ++ [mkCheckin db.nextId uid r.date r.values t]).all Checkin.inRange = true
      rw [List.all_append]
      have hr : Checkin.inRange (mkCheckin db.nextId uid r.date r.values t) = true :=
        inRange_mkCheckin _ uid r.date r.values t (hrows r (List.mem_cons_self r rs))
      have hall : db.rows.all Checkin.inRange = true := h
      simp [hall, hr]

/-- Claim C5 (amended): the rating-range invariant is preserved by every store
operation PROVIDED the written rows themselves carry ratings in `[1,10]` (as
the validated import path and the validated single-checkin endpoint
guarantee); `deleteAllCheckins` preserves it unconditionally.  In the model
the five rating fields are present on every stored row by construction; the
adapters themselves do not check ranges. -/
theorem C5_invariant_preserved (db : DB) (h : DB.good db = true) :
    (∀ t uid date v, Ratings.inRange v = true →
       DB.good (SQLiteAdapter.createOrUpdateCheckin db t uid date v).2 = true)
  ∧ (∀ t uid rows, (∀ r ∈ rows, CsvRow.inRange r = true) →
       DB.good (SQLiteAdapter.bulkReplaceCheckins db t uid rows).2 = true)
  ∧ (∀ uid, DB.good (SQLiteAdapter.deleteAllCheckins db uid).2 = true)
  ∧ (∀ t uid date v, Ratings.inRange v = true →
       DB.good (AzureSQLAdapter.createOrUpdateCheckin db t uid date v).2 = true)
  ∧ (∀ t uid rows, (∀ r ∈ rows, CsvRow.inRange r = true) →
       DB.good (AzureSQLAdapter.bulkReplaceCheckins db t uid rows).2 = true)
  ∧ (∀ uid, DB.good (AzureSQLAdapter.deleteAllCheckins db uid).2 = true) := by
  refine ⟨?_, ?_, ?_, ?_, ?_, ?_⟩
  · intro t uid date v hv
    show (db.rows.filter (fun c => !(conflicts uid date db.nextId c))
        ++ [mkCheckin db.nextId uid date v t]).all Checkin.inRange = true
    have h1 := all_inRange_of_filter (fun c => !(conflicts uid date db.nextId c)) db.rows h
    have h2 := inRange_mkCheckin db.nextId uid date v t hv
    rw [List.all_append]
    simp [h1, h2]
  · intro t uid rows hrows
    exact sqlite_bulkInsertLoop_good uid t rows _ hrows
      (all_inRange_of_filter (fun c => !(c.user_id == uid)) db.rows h)
  · intro uid
    exact all_inRange_of_filter (fun c => !(c.user_id == uid)) db.rows h
  · intro t uid date v hv
    unfold AzureSQLAdapter.createOrUpdateCheckin
    by_cases hc : db.rows.any (keyMatch uid date) = true
    · rw [if_pos hc]
      show (db.rows.map (updateRatings uid date v)).all Checkin.inRange = true
      rw [List.all_map, List.all_eq_true]
      intro x hx
      exact inRange_updateRatings uid date v x hv (List.all_eq_true.mp h x hx)
    · rw [if_neg hc]
      show (db.rows ++ [mkCheckin db.nextId uid date v t]).all Checkin.inRange = true
      have hall : db.rows.all Checkin.inRange = true := h
      rw [List.all_append]
      simp [hall, inRange_mkCheckin db.nextId uid date v t hv]
  · intro t uid rows hrows
    have hgood := all_inRange_of_filter (fun c => !(c.user_id == uid)) db.rows h
    show DB.good (match AzureSQLAdapter.bulkInsertLoop uid t rows
          ⟨db.rows.filter (fun c => !(c.user_id == uid)), db.nextId⟩ with
        | Except.ok db2 => ((Except.ok ⟨rows.length⟩ : Except String BulkResult), db2)
        | Except.error e => (Except.error e, db)).2 = true
    cases heq : AzureSQLAdapter.bulkInsertLoop uid t rows
        ⟨db.rows.filter (fun c => !(c.user_id == uid)), db.nextId⟩ with
    | ok db2 =>
      exact azure_bulkInsertLoop_good uid t rows
        ⟨db.rows.filter (fun c => !(c.user_id == uid)), db.nextId⟩ db2 hrows hgood heq
    | error e => exact h
  · intro uid
    exact all_inRange_of_filter (fun c => !(c.user_id == uid)) db.rows h

theorem C5_invariant_preserved_witness :
    DB.good ⟨[], 0⟩ = true
  ∧ Ratings.inRange ⟨5, 5, 5, 5, 5⟩ = true
  ∧ DB.good (SQLiteAdapter.createOrUpdateCheckin ⟨[], 0⟩ 0 "u" "2025-01-01"
      ⟨5, 5, 5, 5, 5⟩).2 = true :=
  ⟨by decide, by decide,
   (C5_invariant_preserved ⟨[], 0⟩ (by decide)).1 0 "u" "2025-01-01" ⟨5, 5, 5, 5, 5⟩ (by decide)⟩

/-- Claim C4 counterexample: the rating value `"5.5"` is not an integer, yet
`validateCSV` accepts the row — JS `parseInt` truncates it to `5` — so no
error is raised, and `saveData` proceeds to call the bulk endpoint with the
truncated row instead of rejecting the payload. -/
theorem C4_counterexample :
    validateCSV "date,overall,wellbeing,growth,relationships,impact\n2025-01-01,5.5,5,5,5,5"
      = Except.ok [⟨"2025-01-01", 5, 5, 5, 5, 5⟩]
  ∧ saveData "date,overall,wellbeing,growth,relationships,impact\n2025-01-01,5.5,5,5,5,5"
      = SaveAction.bulkPut [⟨"2025-01-01", 5, 5, 5, 5, 5⟩] := by
  exact ⟨rfl, rfl⟩

theorem parseRating_inRange (raw : String) (v : Int) (h : parseRating raw = some v) :
    1 ≤ v ∧ v ≤ 10 := by
  unfold parseRating at h
  split at h
  · cases h
  · split at h
    · cases h
    · injection h with h1
      subst h1
      rename_i hc
      simp only [Bool.or_eq_true, decide_eq_true_eq] at hc
      push_neg at hc
      omega

theorem validateLine_inRange (headers : List String) (line : String) (r : CsvRow)
    (h : validateLine headers line = Except.ok (some r)) : CsvRow.inRange r = true := by
  unfold validateLine at h
  repeat' split at h
  any_goals (simp at h; done)
  rename_i a1 ov hov a2 we hwe a3 gr hgr a4 re hre a5 im him
  have p1 := parseRating_inRange _ _ hov
  have p2 := parseRating_inRange _ _ hwe
  have p3 := parseRating_inRange _ _ hgr
  have p4 := parseRating_inRange _ _ hre
  have p5 := parseRating_inRange _ _ him
  injection h with h1
  injection h1 with h2
  subst h2
  simp only [CsvRow.inRange, CsvRow.values, Ratings.inRange, Bool.and_eq_true,
    decide_eq_true_eq]
  omega

theorem validateLines_inRange (headers : List String) :
    ∀ (i : Nat) (ls : List String) (rows : List CsvRow),
      validateLines headers i ls = Except.ok rows → ∀ r ∈ rows, CsvRow.inRange r = true
  | _, [], rows, h => by
    unfold validateLines at h
    injection h with h1
    subst h1
    intro r hr
    cases hr
  | i, l :: ls, rows, h => by
    unfold validateLines at h
    cases hv : validateLine headers l with
    | error e => rw [hv] at h; cases h
    | ok o =>
      rw [hv] at h
      cases o with
      | none => exact validateLines_inRange headers (i + 1) ls rows h
      | some r0 =>
        cases hrec : validateLines headers (i + 1) ls with
        | error e => rw [hrec] at h; cases h
        | ok rest =>
          rw [hrec] at h
          simp only [Except.map] at h
          injection h with h1
          subst h1
          intro r hr
          rcases List.mem_cons.mp hr with h1 | h2
          · subst h1
            exact validateLine_inRange headers l r hv
          · exact validateLines_inRange headers (i + 1) ls rest hrec r h2

/-- Claim C4 (amended): `validateCSV` rejects any data row whose rating value
has no leading integer (JS `parseInt` yields `NaN`) or whose parsed integer
lies outside `[1,10]`, reporting the offending row number and field name; a
value with a fractional or trailing non-numeric suffix (such as `"5.5"`) is
truncated to its leading integer and accepted rather than rejected.  Every
row of an accepted payload carries five integer ratings in `[1,10]`, and on a
validation failure `saveData` surfaces the error and performs no write. -/
theorem C4_validation_rejects_and_no_write :
    (∀ (csvText : String) (rows : List CsvRow) (r : CsvRow),
        saveData csvText = SaveAction.bulkPut rows → r ∈ rows → CsvRow.inRange r = true)
  ∧ (∀ (csvText : String) (e : String), validateCSV csvText = Except.error e →
        saveData csvText = SaveAction.noWrite e)
  ∧ validateCSV "date,overall,wellbeing,growth,relationships,impact\n2025-01-01,11,5,5,5,5"
      = Except.error "Row 2: overall must be a number between 1 and 10" := by
  refine ⟨?_, ?_, rfl⟩
  · intro csvText rows r hsave hr
    unfold saveData at hsave
    cases hcsv : validateCSV csvText with
    | error e => rw [hcsv] at hsave; cases hsave
    | ok rows' =>
      rw [hcsv] at hsave
      injection hsave with h1
      subst h1
      unfold validateCSV at hcsv
      split at hcsv
      · exact validateLines_inRange _ 1 _ rows' hcsv r hr
      · cases hcsv
  · intro csvText e hval
    unfold saveData
    rw [hval]

theorem C4_validation_rejects_and_no_write_witness :
    saveData "date,overall,wellbeing,growth,relationships,impact\n2025-01-03,5,6,7,8,9"
      = SaveAction.bulkPut [⟨"2025-01-03", 5, 6, 7, 8, 9⟩]
  ∧ (⟨"2025-01-03", 5, 6, 7, 8, 9⟩ : CsvRow) ∈ [(⟨"2025-01-03", 5, 6, 7, 8, 9⟩ : CsvRow)]
  ∧ CsvRow.inRange ⟨"2025-01-03", 5, 6, 7, 8, 9⟩ = true :=
  ⟨rfl, by simp,
   C4_validation_rejects_and_no_write.1
     "date,overall,wellbeing,growth,relationships,impact\n2025-01-03,5,6,7,8,9"
     [⟨"2025-01-03", 5, 6, 7, 8, 9⟩] ⟨"2025-01-03", 5, 6, 7, 8, 9⟩ rfl (by simp)⟩

/-- The successfully parsed record list of a validation outcome (`none` on a
validation error). -/
def okValue : Except String (List CsvRow) → Option (List CsvRow)
  | Except.ok v => some v
  | Except.error _ => none

theorem okValue_map (f : List CsvRow → List CsvRow) (e : Except String (List CsvRow)) :
    okValue (Except.map f e) = (okValue e).map f := by
  cases e <;> rfl

theorem validateLines_skip_blank (headers : List String) :
    ∀ (ls : List String) (i j : Nat),
      okValue (validateLines headers i ls)
        = okValue (validateLines headers j (ls.filter (fun l => !(jsTrim l == ""))))
  | [], _, _ => rfl
  | l :: ls, i, j => by
    by_cases hb : (jsTrim l == "") = true
    · have hskip : validateLine headers l = Except.ok none := by
        unfold validateLine
        rw [if_pos hb]
      have hfil : (l :: ls).filter (fun x => !(jsTrim x == ""))
          = ls.filter (fun x => !(jsTrim x == "")) := by
        simp [List.filter_cons, hb]
      have hstep : validateLines headers i (l :: ls) = validateLines headers (i + 1) ls := by
        conv_lhs => rw [validateLines]
        rw [hskip]
      rw [hfil, hstep]
      exact validateLines_skip_blank headers ls (i + 1) j
    · have hb' : (jsTrim l == "") = false := by
        cases hx : (jsTrim l == "") with
        | true => exact absurd hx hb
        | false => rfl
      have hfil : (l :: ls).filter (fun x => !(jsTrim x == ""))
          = l :: ls.filter (fun x => !(jsTrim x == "")) := by
        simp [List.filter_cons, hb']
      rw [hfil]
      unfold validateLines
      cases hv : validateLine headers l with
      | error e => rfl
      | ok o =>
        cases o with
        | none => exact validateLines_skip_blank headers ls (i + 1) (j + 1)
        | some r =>
          rw [okValue_map, okValue_map, validateLines_skip_blank headers ls (i + 1) (j + 1)]

/-- Claim C10: `validateCSV` skips data lines that are empty or
whitespace-only — the parsed outcome of the data-line loop coincides (success
for success, and with the same record list) with that of the same lines with
the blank ones removed; in particular a payload consisting of only the header
row parses to the empty list, and bulk-saving an empty list leaves the owner
with no records (`getCheckins` afterwards is empty) while reporting zero rows
inserted. -/
theorem C10_blank_lines_skipped (headers : List String) (i j : Nat) (ls : List String) :
    okValue (validateLines headers i ls)
      = okValue (validateLines headers j (ls.filter (fun l => !(jsTrim l == ""))))
  ∧ validateCSV "date,overall,wellbeing,growth,relationships,impact" = Except.ok []
  ∧ (∀ (db : DB) (t : Nat) (uid : String),
      SQLiteAdapter.getCheckins (SQLiteAdapter.bulkReplaceCheckins db t uid []).2 uid = []
        ∧ (SQLiteAdapter.bulkReplaceCheckins db t uid []).1 = ⟨0⟩) := by
  refine ⟨validateLines_skip_blank headers ls i j, rfl, ?_⟩
  intro db t uid
  constructor
  · show List.insertionSort dateLe
      ((db.rows.filter (fun c => !(c.user_id == uid))).filter (fun c => c.user_id == uid)) = []
    rw [List.filter_filter]
    rw [List.filter_eq_nil_iff.mpr (fun a _ => by
      cases hx : (a.user_id == uid) <;> simp [hx])]
    rfl
  · rfl
